import Mathlib

/-!
# Verification of the ollama-tools core (executor + proxy)

Shallow embedding of `src/ollama_tools/executor.py` and
`src/ollama_tools/proxy.py`.  Filesystem state is passed explicitly
(a map from resolved absolute paths to entries), machine behaviour that
lies outside the process (the symlink/`..` resolution performed by
`pathlib.Path.resolve`, the backend HTTP service, JSON parsing of tool
arguments) is abstracted as an explicit function parameter, and every
Python exception that the code can raise across an embedded boundary is
represented by an `Except` value.
-/

namespace OllamaTools

/-! ## Python string primitives

Executable models of the CPython `str` operations used by the executor:
`str.count` and `str.replace` scan left to right and consume
non-overlapping occurrences; `str.count("")` is `len+1`;
`"".join`/slicing etc. are modelled where used.  The recursions carry a
fuel argument equal to the scanned length so that every definition is
structural and kernel-computable.
-/

/-- One step of the non-overlapping left-to-right scan of `str.count`.
`fuel` bounds the recursion; callers pass the length of the scanned
list, which suffices because each step consumes at least one character
when `sub` is non-empty. -/
def py_count_aux (sub : List Char) : Nat → List Char → Nat
  | _, [] => 0
  | 0, _ :: _ => 0
  | fuel + 1, c :: rest =>
    if sub.isPrefixOf (c :: rest) then
      1 + py_count_aux sub fuel ((c :: rest).drop sub.length)
    else
      py_count_aux sub fuel rest

/-- CPython `s.count(sub)`: number of non-overlapping occurrences of
`sub` in `s`, counting `len(s) + 1` when `sub` is empty. -/
def py_str_count (s sub : String) : Nat :=
  if sub.data = [] then s.data.length + 1
  else py_count_aux sub.data s.data.length s.data

/-- Scan of CPython `s.replace(old, new)` (replace all, non-overlapping,
left to right); `fuel` as in `py_count_aux`. -/
def py_replace_all_aux (sub repl : List Char) : Nat → List Char → List Char
  | _, [] => []
  | 0, s => s
  | fuel + 1, c :: rest =>
    if sub.isPrefixOf (c :: rest) then
      repl ++ py_replace_all_aux sub repl fuel ((c :: rest).drop sub.length)
    else
      c :: py_replace_all_aux sub repl fuel rest

/-- CPython `s.replace(old, new)`: every non-overlapping occurrence is
replaced; an empty `old` inserts `new` before every character and at
the end, as CPython does. -/
def py_str_replace_all (s sub repl : String) : String :=
  if sub.data = [] then
    String.mk (repl.data ++ s.data.foldr (fun ch acc => ch :: (repl.data ++ acc)) [])
  else String.mk (py_replace_all_aux sub.data repl.data s.data.length s.data)

/-- Scan of CPython `s.replace(old, new, 1)`: only the leftmost
occurrence is replaced. -/
def py_replace_one_aux (sub repl : List Char) : List Char → List Char
  | [] => []
  | c :: rest =>
    if sub.isPrefixOf (c :: rest) then repl ++ (c :: rest).drop sub.length
    else c :: py_replace_one_aux sub repl rest

/-- CPython `s.replace(old, new, 1)`. -/
def py_str_replace_one (s sub repl : String) : String :=
  if sub.data = [] then String.mk (repl.data ++ s.data)
  else String.mk (py_replace_one_aux sub.data repl.data s.data)

/-- CPython `s.startswith(pre)`. -/
def py_startswith (s pre : String) : Bool :=
  pre.data.isPrefixOf s.data

/-- CPython `s.strip()`: remove leading and trailing whitespace. -/
def py_strip (s : String) : String :=
  String.mk (((s.data.dropWhile Char.isWhitespace).reverse.dropWhile Char.isWhitespace).reverse)

/-- CPython `s.rstrip()`: remove trailing whitespace. -/
def py_rstrip (s : String) : String :=
  String.mk ((s.data.reverse.dropWhile Char.isWhitespace).reverse)

/-- CPython `repr` of a list of strings, as interpolated by an f-string:
`['echo', 'ls', 'cat']`. -/
def py_repr_list (l : List String) : String :=
  "[" ++ String.intercalate ", " (l.map (fun s => "\x27" ++ s ++ "\x27")) ++ "]"

/-- CPython `f.readlines()` on text read with `\n` line separators:
split after every newline, keeping the newline on each line; a final
fragment without a newline is kept, an empty final fragment is not. -/
def py_readlines_aux : List Char → List Char → List String
  | acc, [] => if acc = [] then [] else [String.mk acc.reverse]
  | acc, c :: rest =>
    if c = '\n' then String.mk (acc.reverse ++ ['\n']) :: py_readlines_aux [] rest
    else py_readlines_aux (c :: acc) rest

/-- CPython `open(path).readlines()` on file content `s`. -/
def py_readlines (s : String) : List String :=
  py_readlines_aux [] s.data

/-- CPython list slicing `xs[start:stop]` with `int` indices: negative
indices count from the end, and both bounds are clamped to `[0, len]`. -/
def py_slice (xs : List String) (start stop : Int) : List String :=
  let n : Int := xs.length
  let s := if start < 0 then max (n + start) 0 else min start n
  let e := if stop < 0 then max (n + stop) 0 else min stop n
  (xs.take e.toNat).drop s.toNat

/-- CPython `x or d` for an optional `int` argument: `None` and `0` are
both falsy and yield the default. -/
def py_or_int (v : Option Int) (dflt : Int) : Int :=
  match v with
  | none => dflt
  | some x => if x = 0 then dflt else x

/-! ## Path sandbox (`ToolExecutor._resolve_path`, `_is_subpath`)

A resolved absolute path is its list of components below the filesystem
root.  `pathlib.Path.resolve` (symlink and `..` elimination against the
live filesystem) is abstracted as the parameter `fsResolve`; the claims
quantify over every such resolution behaviour.
-/

/-- A fully resolved absolute path: component list below the root. -/
abbrev AbsPath := List String

/-- A user-supplied path before resolution (`pathlib.Path(file_path)`). -/
structure RawPath where
  isAbsolute : Bool
  parts : List String
deriving DecidableEq

/-- Rendering of an already-resolved absolute path, as interpolated into
the `Access denied` message. -/
def abs_path_string (p : AbsPath) : String :=
  "/" ++ String.intercalate "/" p

/-- Rendering of a raw path argument, as interpolated into tool error
messages (`f"...: {file_path}"`). -/
def raw_path_string (p : RawPath) : String :=
  (if p.isAbsolute then "/" else "") ++ String.intercalate "/" p.parts

/-- The directory configuration of `ToolExecutor.__init__`:
`working_directory` and `allowed_directories`, both already resolved. -/
structure SandboxConfig where
  workingDirectory : AbsPath
  allowedDirectories : List AbsPath
deriving DecidableEq

/-- The Python exceptions distinguished by `ToolExecutor.execute`. -/
inductive PyErr where
  | permissionError (msg : String)
  | fileNotFoundError (msg : String)
  | otherError (ty : String) (msg : String)
deriving DecidableEq

/-- `ToolExecutor._is_subpath`: `path.relative_to(parent)` succeeds
exactly when `parent` is a component-wise prefix of `path`. -/
def is_subpath (path parent : AbsPath) : Bool :=
  parent.isPrefixOf path

/-- `working_directory / path` when the argument is relative, the
argument itself when absolute (executor.py lines 40-42). -/
def join_working (workingDirectory : AbsPath) (p : RawPath) : RawPath :=
  if p.isAbsolute then p else ⟨true, workingDirectory ++ p.parts⟩

/-- `ToolExecutor._resolve_path`: join against the working directory,
normalize through the filesystem (`fsResolve` models `Path.resolve`),
then require containment in some allowed directory, raising
`PermissionError` otherwise (executor.py lines 38-50). -/
def resolve_path (fsResolve : RawPath → AbsPath) (cfg : SandboxConfig)
    (file_path : RawPath) : Except PyErr AbsPath :=
  let path := fsResolve (join_working cfg.workingDirectory file_path)
  if cfg.allowedDirectories.any (fun allowed => is_subpath path allowed) then
    Except.ok path
  else
    Except.error (PyErr.permissionError
      ("Access denied: " ++ abs_path_string path ++ " is outside allowed directories"))

/-! ## Dispatch boundary (`ToolExecutor.execute`, `execute_tool_call`) -/

/-- A parsed tool-argument mapping (the result of `json.loads`); its
internal structure is irrelevant to the dispatch boundary, which only
forwards it. -/
abbrev Args := List (String × String)

/-- The empty argument mapping used as fallback for malformed JSON. -/
def empty_args : Args := []

/-- The method table `getattr(self, f"_tool_{tool_name}", None)`:
`none` models a missing `_tool_*` method.  An individual method is a
total function whose raised exceptions are its `Except.error` results
(this includes the `TypeError` of a failed `**arguments` binding). -/
abbrev MethodMap := (String → Option (Args → Except PyErr String))

/-- The textual rendering the `except` clauses of `ToolExecutor.execute`
apply to an exception escaping a tool method (executor.py lines 76-81). -/
def render_error (tool_name : String) : PyErr → String
  | PyErr.permissionError msg => "Permission denied: " ++ msg
  | PyErr.fileNotFoundError msg => "File not found: " ++ msg
  | PyErr.otherError ty msg => "Error executing " ++ tool_name ++ ": " ++ ty ++ ": " ++ msg

/-- `ToolExecutor.execute` (executor.py lines 60-81): look the method up
by name, report an unknown tool textually, and render every exception
of the method as a descriptive string. -/
def execute (methods : MethodMap) (tool_name : String) (arguments : Args) : String :=
  match methods tool_name with
  | none => "Error: Unknown tool \x27" ++ tool_name ++ "\x27"
  | some method =>
    match method arguments with
    | Except.ok s => s
    | Except.error e => render_error tool_name e

/-- A backend-issued tool call record (`tool_call["function"]["name"]`,
`...["arguments"]`, `tool_call["id"]`, with the `.get` defaults already
applied). -/
structure ToolCall where
  id : String
  name : String
  arguments : String
deriving DecidableEq

/-- A conversation message; `tool_calls` is empty when the key is absent. -/
structure Msg where
  role : String := ""
  content : String := ""
  tool_call_id : String := ""
  tool_calls : List ToolCall := []
deriving DecidableEq

/-- The result of `json.loads` on a raw argument payload: `none` models
a `json.JSONDecodeError`. -/
abbrev JsonParse := (String → Option Args)

/-- `ToolExecutor.execute_tool_call` (executor.py lines 83-108): parse
the raw arguments, degrading to the empty mapping on a decode error,
dispatch through `execute`, and wrap the string result in a
role-`tool` message carrying the id of the call. -/
def execute_tool_call (methods : MethodMap) (jsonParse : JsonParse) (tc : ToolCall) : Msg :=
  let arguments := (jsonParse tc.arguments).getD empty_args
  { role := "tool", tool_call_id := tc.id, content := execute methods tc.name arguments }

/-- Equality of embedded fallible results is decidable, so concrete
runs of the tools can be checked by evaluation. -/
instance {ε α : Type} [DecidableEq ε] [DecidableEq α] : DecidableEq (Except ε α)
  | Except.error a, Except.error b =>
    if h : a = b then isTrue (by rw [h]) else isFalse (fun hc => by cases hc; exact h rfl)
  | Except.error _, Except.ok _ => isFalse (fun hc => by cases hc)
  | Except.ok _, Except.error _ => isFalse (fun hc => by cases hc)
  | Except.ok a, Except.ok b =>
    if h : a = b then isTrue (by rw [h]) else isFalse (fun hc => by cases hc; exact h rfl)

/-! ## Tool implementations -/

/-- A filesystem entry at a resolved absolute path: a regular file with
its text content, or a directory.  Lookup yields `none` when nothing
exists at the path. -/
inductive FSEntry where
  | file (content : String)
  | dir
deriving DecidableEq

/-- The filesystem visible to one tool invocation. -/
abbrev FileSystem := (AbsPath → Option FSEntry)

/-- The outcome of `_tool_edit_file`: the string returned to the LLM and
the content written back to the resolved path, `none` when the call
returned without writing. -/
structure EditResult where
  message : String
  written : Option String
deriving DecidableEq

/-- `ToolExecutor._tool_edit_file` (executor.py lines 177-217): resolve,
check existence, count occurrences of `old_string`, refuse a zero or
ambiguous count without mutating, otherwise replace one or all
occurrences and write the result.  A directory at the path makes
`open` raise, which line 193 reports as a read error without mutating;
the embedded message keeps the `Error reading file:` prefix without the
OS errno text. -/
def tool_edit_file (fsResolve : RawPath → AbsPath) (cfg : SandboxConfig)
    (fs : FileSystem) (file_path : RawPath) (old_string new_string : String)
    (replace_all : Bool) : Except PyErr EditResult :=
  (resolve_path fsResolve cfg file_path).bind fun path =>
  match fs path with
  | none => Except.ok ⟨"Error: File does not exist: " ++ raw_path_string file_path, none⟩
  | some FSEntry.dir => Except.ok ⟨"Error reading file: " ++ raw_path_string file_path, none⟩
  | some (FSEntry.file content) =>
    let count := py_str_count content old_string
    if count = 0 then
      Except.ok ⟨"Error: old_string not found in file. Make sure it matches exactly including whitespace.", none⟩
    else if 1 < count ∧ replace_all = false then
      Except.ok ⟨"Error: old_string found " ++ toString count ++ " times in file. Set replace_all=true to replace all, or provide more context to make it unique.", none⟩
    else
      let new_content :=
        if replace_all then py_str_replace_all content old_string new_string
        else py_str_replace_one content old_string new_string
      let replaced_count := if replace_all then count else 1
      Except.ok ⟨"Successfully replaced " ++ toString replaced_count ++ " occurrence(s) in " ++ raw_path_string file_path,
                 some new_content⟩

/-- `f"{i:6}"`: decimal rendering right-justified to width 6. -/
def int_rjust6 (i : Int) : String :=
  let s := toString i
  String.mk (List.replicate (6 - s.length) ' ') ++ s

/-- The per-line formatting of `_tool_read_file` (executor.py lines
146-150): truncate lines longer than 2000 characters with a marker,
then strip the trailing newline/whitespace. -/
def format_line (line : String) : String :=
  py_rstrip (if 2000 < line.data.length then String.mk (line.data.take 2000) ++ "...[truncated]\n" else line)

/-- `enumerate(selected_lines, start=start_line + 1)` combined with the
formatting loop: pair each selected line with its 1-indexed line
number and render it. -/
def number_from (start : Int) : List String → List (Int × String)
  | [] => []
  | x :: xs => (start, int_rjust6 start ++ "\t" ++ format_line x) :: number_from (start + 1) xs

/-- The line-window selection of `_tool_read_file` (executor.py lines
133-150): `offset or 1` (1-indexed, clamped below at line 1),
`limit or 2000`, Python list slicing, then numbering and formatting. -/
def read_file_numbered (lines : List String) (offset limit : Option Int) : List (Int × String) :=
  let start_line := max (py_or_int offset 1 - 1) 0
  let end_line := start_line + py_or_int limit 2000
  number_from (start_line + 1) (py_slice lines start_line end_line)

/-- The output assembly of `_tool_read_file` (executor.py lines 127-161)
on the content of an existing regular file: an explicit empty-window
message when no lines were selected, otherwise the numbered lines
joined with newlines plus a `Showing lines` footer when the window was
cut short by the line cap. -/
def read_file_output (file_path_str : String) (content : String)
    (offset limit : Option Int) : String :=
  let lines := py_readlines content
  let start_line := max (py_or_int offset 1 - 1) 0
  let end_line := start_line + py_or_int limit 2000
  let numbered := read_file_numbered lines offset limit
  if numbered.isEmpty then
    "File is empty or offset is beyond file length: " ++ file_path_str
  else
    let result := String.intercalate "\n" (numbered.map Prod.snd)
    if end_line < (lines.length : Int) then
      result ++ "\n\n[Showing lines " ++ toString (start_line + 1) ++ "-" ++ toString end_line ++
        " of " ++ toString lines.length ++ " total]"
    else result

/-- `ToolExecutor._tool_read_file` (executor.py lines 112-161): resolve
the path, report a missing file or a non-file textually, and otherwise
render the selected line window. -/
def tool_read_file (fsResolve : RawPath → AbsPath) (cfg : SandboxConfig)
    (fs : FileSystem) (file_path : RawPath) (offset limit : Option Int) :
    Except PyErr String :=
  (resolve_path fsResolve cfg file_path).bind fun path =>
  match fs path with
  | none => Except.ok ("Error: File does not exist: " ++ raw_path_string file_path)
  | some FSEntry.dir => Except.ok ("Error: Path is not a file: " ++ raw_path_string file_path)
  | some (FSEntry.file content) =>
    Except.ok (read_file_output (raw_path_string file_path) content offset limit)

/-- What `_tool_run_command` does after its gates: either it returns a
refusal string without touching the system, or it reaches the
`subprocess.run` call with a shell command, a resolved working
directory and a capped timeout.  The subprocess itself is outside the
embedding boundary. -/
inductive CommandAction where
  | noExecution (msg : String)
  | launched (command : String) (cwd : AbsPath) (timeoutSeconds : Int)
deriving DecidableEq

/-- Python truthiness of the optional allowlist (`if self.command_allowlist:`):
`None` and the empty list are both falsy. -/
def allowlist_truthy (l : Option (List String)) : Bool :=
  match l with
  | none => false
  | some xs => !xs.isEmpty

/-- `ToolExecutor._tool_run_command` (executor.py lines 388-413) up to
the `subprocess.run` boundary: refuse when commands are disabled,
refuse when a truthy allowlist matches no prefix of the stripped
command, then resolve the working directory (which may raise
`PermissionError`) and launch with the timeout capped at 600. -/
def tool_run_command (fsResolve : RawPath → AbsPath) (cfg : SandboxConfig)
    (allow_commands : Bool) (command_allowlist : Option (List String))
    (command : String) (working_directory : Option RawPath) (timeout : Int) :
    Except PyErr CommandAction :=
  if !allow_commands then
    Except.ok (CommandAction.noExecution "Error: Command execution is disabled")
  else if allowlist_truthy command_allowlist ∧
      !(command_allowlist.getD []).any (fun pre => py_startswith (py_strip command) pre) then
    Except.ok (CommandAction.noExecution
      ("Error: Command not in allowlist. Allowed prefixes: " ++ py_repr_list (command_allowlist.getD [])))
  else
    match working_directory with
    | none => Except.ok (CommandAction.launched command cfg.workingDirectory (min timeout 600))
    | some wd => (resolve_path fsResolve cfg wd).map
        (fun p => CommandAction.launched command p (min timeout 600))

/-! ## Proxy configuration and orchestration loop (`proxy.py`) -/

/-- The fields of `ProxyConfig` that the core logic reads (proxy.py
lines 26-39); transport fields (base URL, auth token) are outside the
embedding boundary. -/
structure ProxyConfig where
  use_anthropic_api : Bool := false
  allow_commands : Bool := true
  inject_tools : Bool := true
  max_tool_iterations : Int := 10
  default_model : String := "devstral-small-2:24b"
  force_model : Bool := false
deriving DecidableEq

/-- `model = model or self.config.default_model` (proxy.py line 88), the
model name placed in `request_body` for every round trip of
`chat_completion`; an empty string is falsy in Python.  Note that
`force_model` is not consulted on this path. -/
def chat_completion_model (cfg : ProxyConfig) (model : Option String) : String :=
  match model with
  | none => cfg.default_model
  | some m => if m = "" then cfg.default_model else m

/-- The model override of `_call_ollama_anthropic` and
`_stream_ollama_anthropic` (proxy.py lines 182-187 and 225-230): when
`force_model` is set and the client model differs from the default, the
default is substituted before forwarding. -/
def anthropic_request_model (cfg : ProxyConfig) (body_model : String) : String :=
  if cfg.force_model ∧ body_model ≠ cfg.default_model then cfg.default_model
  else body_model

/-- One backend response as seen by the loop:
`response["choices"][0]["message"]` with the `.get` defaults applied.
The backend itself (`_call_ollama`) is an abstract function of the
conversation it is sent. -/
structure ChatResponse where
  message : Msg
deriving DecidableEq

/-- The conversation extension of one tool-executing iteration
(proxy.py lines 129-135): append the assistant message verbatim, then
one tool-result message per requested call, in request order. -/
def next_conversation (methods : MethodMap) (jsonParse : JsonParse)
    (msgs : List Msg) (m : Msg) : List Msg :=
  msgs ++ m :: m.tool_calls.map (execute_tool_call methods jsonParse)

/-- The observable outcome of `chat_completion`: the returned response
(`none` models the `NameError` raised by `return response` when the
loop body never ran and `response` is unbound), the number of backend
round trips performed, and the final `current_messages`. -/
structure ChatOutcome where
  response : Option ChatResponse
  roundTrips : Nat
  conversation : List Msg
deriving DecidableEq

/-- The `while iterations < self.config.max_tool_iterations` loop of
`chat_completion` (proxy.py lines 108-145), with the remaining
iteration budget as fuel: call the backend, return its response when it
requests no tools, otherwise execute the calls, extend the conversation
and continue; when the budget is exhausted return the response of the
last round trip (`last`). -/
def chat_loop (backend : List Msg → ChatResponse) (methods : MethodMap)
    (jsonParse : JsonParse) : Nat → List Msg → Option ChatResponse → ChatOutcome
  | 0, msgs, last => ⟨last, 0, msgs⟩
  | fuel + 1, msgs, _ =>
    let r := backend msgs
    if r.message.tool_calls = [] then ⟨some r, 1, msgs⟩
    else
      let o := chat_loop backend methods jsonParse fuel
        (next_conversation methods jsonParse msgs r.message) (some r)
      ⟨o.response, o.roundTrips + 1, o.conversation⟩

/-- `OllamaToolProxy.chat_completion` (proxy.py lines 65-145): run the
tool loop starting from the caller's messages with an unbound
`response`.  A non-positive `max_tool_iterations` gives zero fuel. -/
def chat_completion (cfg : ProxyConfig) (backend : List Msg → ChatResponse)
    (methods : MethodMap) (jsonParse : JsonParse) (messages : List Msg) : ChatOutcome :=
  chat_loop backend methods jsonParse cfg.max_tool_iterations.toNat messages none

/-- The conversation sent to the backend on round trip `k` (0-indexed)
when every earlier round trip requested tools: iterate the
per-iteration extension. -/
def conversation_at (backend : List Msg → ChatResponse) (methods : MethodMap)
    (jsonParse : JsonParse) : Nat → List Msg → List Msg
  | 0, msgs => msgs
  | k + 1, msgs =>
    conversation_at backend methods jsonParse k
      (next_conversation methods jsonParse msgs (backend msgs).message)

/-- `ys` is `xs` with zero or more messages appended: no element of
`xs` was removed, edited or reordered. -/
def conversation_extends (xs ys : List Msg) : Prop :=
  ∃ t, ys = xs ++ t

/-! ## Claim C1: the path sandbox denies every escaping path -/

/-- C1.  For every input path (relative or absolute, under every
resolution behaviour of the filesystem, so in particular under symlink
indirection), if the normalized absolute path is a descendant of no
allowed directory, `_resolve_path` raises `PermissionError` with the
`Access denied` message, and any tool invocation that resolves that
path has its error rendered by the `execute` boundary as a textual
`Permission denied` result instead of an escaping exception. -/
theorem C1_sandbox_denies (fsResolve : RawPath → AbsPath) (cfg : SandboxConfig) (fp : RawPath)
    (h : ∀ a ∈ cfg.allowedDirectories,
      is_subpath (fsResolve (join_working cfg.workingDirectory fp)) a = false) :
    resolve_path fsResolve cfg fp = Except.error (PyErr.permissionError
      ("Access denied: " ++ abs_path_string (fsResolve (join_working cfg.workingDirectory fp)) ++
        " is outside allowed directories"))
    ∧ ∀ (name : String) (args : Args) (k : AbsPath → Except PyErr String),
        execute (fun n => if n = name then
            some (fun _ => (resolve_path fsResolve cfg fp).bind k) else none) name args
          = "Permission denied: " ++
            ("Access denied: " ++ abs_path_string (fsResolve (join_working cfg.workingDirectory fp)) ++
              " is outside allowed directories") := by
  have hany : (cfg.allowedDirectories.any fun allowed =>
      is_subpath (fsResolve (join_working cfg.workingDirectory fp)) allowed) = false := by
    rw [List.any_eq_false]
    intro a ha
    simp [h a ha]
  have hres : resolve_path fsResolve cfg fp = Except.error (PyErr.permissionError
      ("Access denied: " ++ abs_path_string (fsResolve (join_working cfg.workingDirectory fp)) ++
        " is outside allowed directories")) := by
    simp [resolve_path, hany]
  refine ⟨hres, fun name args k => ?_⟩
  simp [execute, hres, Except.bind, render_error]

def c1_cfg : SandboxConfig := ⟨["home", "user"], [["home", "user"]]⟩

def c1_fp : RawPath := ⟨true, ["etc", "passwd"]⟩

def c1_resolve : RawPath → AbsPath := fun r => r.parts

/-- Concrete run of C1: `/etc/passwd` against the allowed directory
`/home/user` is denied, and the `read_file` invocation renders the
denial textually. -/
theorem C1_witness :
    resolve_path c1_resolve c1_cfg c1_fp = Except.error (PyErr.permissionError
      ("Access denied: " ++ abs_path_string (c1_resolve (join_working c1_cfg.workingDirectory c1_fp)) ++
        " is outside allowed directories"))
    ∧ execute (fun n => if n = "read_file" then
        some (fun _ => (resolve_path c1_resolve c1_cfg c1_fp).bind (fun _ => Except.ok "")) else none)
        "read_file" []
      = "Permission denied: " ++
        ("Access denied: " ++ abs_path_string (c1_resolve (join_working c1_cfg.workingDirectory c1_fp)) ++
          " is outside allowed directories") := by
  have h := C1_sandbox_denies c1_resolve c1_cfg c1_fp (by decide)
  exact ⟨h.1, h.2 "read_file" [] (fun _ => Except.ok "")⟩

/-! ## Claim C2: `edit_file` is atomic-or-noop on a non-unique target -/

/-- C2.  On an existing file whose content holds `old_string` a number
of times different from 1, `edit_file` with `replace_all = false`
returns a textual error — carrying the occurrence count when it is
greater than one — and performs no write, so the file content is
byte-identical to before the call. -/
theorem C2_edit_atomic_or_noop (fsResolve : RawPath → AbsPath) (cfg : SandboxConfig)
    (fs : FileSystem) (fp : RawPath) (p : AbsPath) (content old_string new_string : String)
    (hres : resolve_path fsResolve cfg fp = Except.ok p)
    (hfs : fs p = some (FSEntry.file content))
    (hcount : py_str_count content old_string ≠ 1) :
    tool_edit_file fsResolve cfg fs fp old_string new_string false
      = Except.ok ⟨if py_str_count content old_string = 0 then
            "Error: old_string not found in file. Make sure it matches exactly including whitespace."
          else
            "Error: old_string found " ++ toString (py_str_count content old_string) ++
              " times in file. Set replace_all=true to replace all, or provide more context to make it unique.",
          none⟩ := by
  simp only [tool_edit_file, hres, Except.bind, hfs]
  by_cases h0 : py_str_count content old_string = 0
  · simp [h0]
  · have h1 : 1 < py_str_count content old_string := by omega
    simp [h0, h1]

def c2_fs : FileSystem := fun q => if q = ["t.txt"] then some (FSEntry.file "xyxy") else none

/-- Concrete run of C2: `old_string = "xy"` occurs twice in `"xyxy"`;
the call reports the count 2 and writes nothing. -/
theorem C2_witness :
    tool_edit_file (fun r => r.parts) ⟨["w"], [[]]⟩ c2_fs ⟨true, ["t.txt"]⟩ "xy" "z" false
      = Except.ok ⟨"Error: old_string found 2 times in file. Set replace_all=true to replace all, or provide more context to make it unique.", none⟩ := by
  have h := C2_edit_atomic_or_noop (fun r => r.parts) ⟨["w"], [[]]⟩ c2_fs ⟨true, ["t.txt"]⟩
    ["t.txt"] "xyxy" "xy" "z" (by decide) (by decide) (by decide)
  exact h.trans (by decide)

/-! ## Claim C5: the dispatch boundary is total and textual -/

/-- C5.  For every tool-call record, dispatch produces a role-`tool`
message carrying the id of the call; a raw argument payload that fails
to parse degrades to the empty argument mapping; an unknown tool name
and every exception of a tool method are rendered as descriptive text
(`Permission denied`, `File not found`, `Error executing ...`), never
re-raised. -/
theorem C5_dispatch_total (methods : MethodMap) (jsonParse : JsonParse) (tc : ToolCall) :
    (execute_tool_call methods jsonParse tc).role = "tool"
    ∧ (execute_tool_call methods jsonParse tc).tool_call_id = tc.id
    ∧ (jsonParse tc.arguments = none →
        (execute_tool_call methods jsonParse tc).content = execute methods tc.name empty_args)
    ∧ (∀ name args, methods name = none →
        execute methods name args = "Error: Unknown tool \x27" ++ name ++ "\x27")
    ∧ (∀ name args impl s, methods name = some impl → impl args = Except.ok s →
        execute methods name args = s)
    ∧ (∀ name args impl e, methods name = some impl → impl args = Except.error e →
        execute methods name args = render_error name e)
    ∧ (∀ name msg, render_error name (PyErr.permissionError msg) = "Permission denied: " ++ msg)
    ∧ (∀ name msg, render_error name (PyErr.fileNotFoundError msg) = "File not found: " ++ msg)
    ∧ (∀ name ty msg, render_error name (PyErr.otherError ty msg)
        = "Error executing " ++ name ++ ": " ++ ty ++ ": " ++ msg) := by
  refine ⟨rfl, rfl, fun hp => ?_, fun name args hm => ?_, fun name args impl s hm hi => ?_,
    fun name args impl e hm hi => ?_, fun _ _ => rfl, fun _ _ => rfl, fun _ _ _ => rfl⟩
  · simp [execute_tool_call, hp, empty_args]
  · simp [execute, hm]
  · simp [execute, hm, hi]
  · simp [execute, hm, hi]

def c5_methods : MethodMap := fun n =>
  if n = "edit_file" then
    some (fun _ => Except.error (PyErr.otherError "TypeError" "unexpected keyword argument"))
  else none

def c5_parse : JsonParse := fun _ => none

def c5_tc : ToolCall := ⟨"call_7", "edit_file", "not json"⟩

/-- Concrete run of C5: malformed arguments degrade to the empty
mapping, and a `TypeError` raised by the method comes back as an
`Error executing` string in a role-`tool` message with the call id. -/
theorem C5_witness :
    (execute_tool_call c5_methods c5_parse c5_tc).role = "tool"
    ∧ (execute_tool_call c5_methods c5_parse c5_tc).tool_call_id = "call_7"
    ∧ (execute_tool_call c5_methods c5_parse c5_tc).content
        = "Error executing edit_file: TypeError: unexpected keyword argument" := by
  have h := C5_dispatch_total c5_methods c5_parse c5_tc
  refine ⟨h.1, h.2.1, ?_⟩
  rw [h.2.2.1 rfl]
  decide

/-! ## Claim C6 (corrected): model-forcing only covers the alternate
passthrough path -/

def c6_cfg : ProxyConfig := { force_model := true, default_model := "d" }

/-- Counterexample to C6 as stated: with `force_model` enabled and
default model `"d"`, a chat-completions request specifying model
`"other"` is forwarded with model `"other"` — `chat_completion`
(proxy.py line 88) never consults `force_model`, so the caller's model
is not overridden on that endpoint. -/
theorem C6_counterexample :
    chat_completion_model c6_cfg (some "other") = "other"
    ∧ c6_cfg.force_model = true
    ∧ c6_cfg.default_model ≠ "other" := by decide

/-- C6 as amended.  Model-forcing holds on the alternate `/v1/messages`
passthrough path (`_call_ollama_anthropic` and its streaming twin):
with `force_model` enabled the forwarded model is always the configured
default.  On the chat-completions path the caller's model is used
as-is, the default substituting only for an absent or empty model. -/
theorem C6_force_model (cfg : ProxyConfig) (body_model m : String)
    (hf : cfg.force_model = true) :
    anthropic_request_model cfg body_model = cfg.default_model
    ∧ chat_completion_model cfg (some m) = (if m = "" then cfg.default_model else m)
    ∧ chat_completion_model cfg none = cfg.default_model := by
  refine ⟨?_, rfl, rfl⟩
  by_cases h : body_model = cfg.default_model
  · simp [anthropic_request_model, h]
  · simp [anthropic_request_model, hf, h]

/-- Concrete run of the amended C6: the passthrough path forces `"d"`,
the chat-completions path keeps `"other"`. -/
theorem C6_witness :
    anthropic_request_model c6_cfg "other" = c6_cfg.default_model
    ∧ chat_completion_model c6_cfg (some "other") = "other" := by
  have h := C6_force_model c6_cfg "other" "other" rfl
  refine ⟨h.1, ?_⟩
  rw [h.2.1]
  decide

/-! ## Claim C9 (corrected): `run_command` gating -/

/-- Counterexample to C9 as stated: an allowlist configured as the
empty list matches no prefix of `"rm -rf /"`, yet the command is
launched — `if self.command_allowlist:` treats an empty configured
allowlist like no allowlist at all, so the claimed rejection does not
happen. -/
theorem C9_counterexample :
    tool_run_command (fun r => r.parts) ⟨["w"], [[]]⟩ true (some []) "rm -rf /" none 120
      = Except.ok (CommandAction.launched "rm -rf /" ["w"] 120) := by decide

/-- C9 as amended.  With commands disabled, `run_command` returns the
disabled-tool message and launches nothing; with a non-empty allowlist
configured and the stripped command starting with none of the allowed
prefixes, it returns the not-in-allowlist message (listing the
prefixes) and launches nothing.  An empty configured allowlist is
treated as no allowlist. -/
theorem C9_gating (fsResolve : RawPath → AbsPath) (cfg : SandboxConfig)
    (command_allowlist : Option (List String)) (command : String)
    (wd : Option RawPath) (timeout : Int) :
    tool_run_command fsResolve cfg false command_allowlist command wd timeout
      = Except.ok (CommandAction.noExecution "Error: Command execution is disabled")
    ∧ (∀ l, command_allowlist = some l → l ≠ [] →
        (∀ pre ∈ l, py_startswith (py_strip command) pre = false) →
        tool_run_command fsResolve cfg true command_allowlist command wd timeout
          = Except.ok (CommandAction.noExecution
              ("Error: Command not in allowlist. Allowed prefixes: " ++ py_repr_list l))) := by
  refine ⟨rfl, fun l hl hne hpre => ?_⟩
  subst hl
  have hany : (l.any fun pre => py_startswith (py_strip command) pre) = false := by
    rw [List.any_eq_false]
    intro x hx
    simp [hpre x hx]
  cases l with
  | nil => exact absurd rfl hne
  | cons a as => simp [tool_run_command, allowlist_truthy, hany]

/-- Concrete run of the amended C9: both gates refuse `"rm -rf /"`
against the allowlist `["echo", "ls", "cat"]`. -/
theorem C9_witness :
    tool_run_command (fun r => r.parts) ⟨["w"], [[]]⟩ false (some ["echo", "ls", "cat"])
        "rm -rf /" none 120
      = Except.ok (CommandAction.noExecution "Error: Command execution is disabled")
    ∧ tool_run_command (fun r => r.parts) ⟨["w"], [[]]⟩ true (some ["echo", "ls", "cat"])
        "rm -rf /" none 120
      = Except.ok (CommandAction.noExecution
          ("Error: Command not in allowlist. Allowed prefixes: " ++ py_repr_list ["echo", "ls", "cat"])) := by
  have h := C9_gating (fun r => r.parts) ⟨["w"], [[]]⟩ (some ["echo", "ls", "cat"])
    "rm -rf /" none 120
  exact ⟨h.1, h.2 ["echo", "ls", "cat"] rfl (by decide) (by decide)⟩

/-! ## Claims C3 and C4: loop bound and conversation ordering -/

/-- The loop performs at most `fuel` backend round trips. -/
theorem chat_loop_roundTrips_le (backend : List Msg → ChatResponse) (methods : MethodMap)
    (jsonParse : JsonParse) :
    ∀ (fuel : Nat) (msgs : List Msg) (last : Option ChatResponse),
      (chat_loop backend methods jsonParse fuel msgs last).roundTrips ≤ fuel := by
  intro fuel
  induction fuel with
  | zero => intro msgs last; simp [chat_loop]
  | succ n ih =>
    intro msgs last
    by_cases h : (backend msgs).message.tool_calls = []
    · simp [chat_loop, h]
    · simp only [chat_loop, h, if_neg, ite_false]
      have := ih (next_conversation methods jsonParse msgs (backend msgs).message) (some (backend msgs))
      simp [h]
      omega

/-- Against a backend that requests tools on every turn, the loop
spends its whole budget and hands back the response of the final round
trip. -/
theorem chat_loop_always_tools (backend : List Msg → ChatResponse) (methods : MethodMap)
    (jsonParse : JsonParse)
    (hb : ∀ conv, (backend conv).message.tool_calls ≠ []) :
    ∀ (fuel : Nat) (msgs : List Msg) (last : Option ChatResponse), 1 ≤ fuel →
      (chat_loop backend methods jsonParse fuel msgs last).response
        = some (backend (conversation_at backend methods jsonParse (fuel - 1) msgs))
      ∧ (chat_loop backend methods jsonParse fuel msgs last).roundTrips = fuel := by
  intro fuel
  induction fuel with
  | zero => intro msgs last h; omega
  | succ n ih =>
    intro msgs last _
    by_cases hn : n = 0
    · subst hn
      simp [chat_loop, hb msgs, conversation_at]
    · obtain ⟨h1, h2⟩ := ih (next_conversation methods jsonParse msgs (backend msgs).message)
        (some (backend msgs)) (by omega)
      have hstep : conversation_at backend methods jsonParse n msgs
          = conversation_at backend methods jsonParse (n - 1)
              (next_conversation methods jsonParse msgs (backend msgs).message) := by
        obtain ⟨m, rfl⟩ := Nat.exists_eq_succ_of_ne_zero hn
        simp [conversation_at]
      simp only [chat_loop, hb msgs, ite_false, if_neg]
      simp [hb msgs, h1, h2, hstep]

/-- C3.  For every backend behaviour, `chat_completion` performs at
most `max_tool_iterations` backend round trips; against a backend that
requests tool calls on every turn and a positive budget, it terminates
after exactly that many round trips and returns the response of the
last round trip as-is. -/
theorem C3_iteration_bound (cfg : ProxyConfig) (backend : List Msg → ChatResponse)
    (methods : MethodMap) (jsonParse : JsonParse) (messages : List Msg) :
    (chat_completion cfg backend methods jsonParse messages).roundTrips
      ≤ cfg.max_tool_iterations.toNat
    ∧ ((∀ conv, (backend conv).message.tool_calls ≠ []) → 1 ≤ cfg.max_tool_iterations →
        (chat_completion cfg backend methods jsonParse messages).response
          = some (backend (conversation_at backend methods jsonParse
              (cfg.max_tool_iterations.toNat - 1) messages))
        ∧ (chat_completion cfg backend methods jsonParse messages).roundTrips
          = cfg.max_tool_iterations.toNat) := by
  constructor
  · exact chat_loop_roundTrips_le backend methods jsonParse _ messages none
  · intro hb hpos
    exact chat_loop_always_tools backend methods jsonParse hb _ messages none (by omega)

def c3_cfg : ProxyConfig := { max_tool_iterations := 2 }

def c3_backend : List Msg → ChatResponse :=
  fun _ => ⟨{ role := "assistant", tool_calls := [⟨"id1", "read_file", "x"⟩] }⟩

/-- Concrete run of C3: a backend that always requests one tool call
exhausts a budget of 2 round trips and the last response is returned. -/
theorem C3_witness :
    (chat_completion c3_cfg c3_backend (fun _ => none) (fun _ => none) []).roundTrips
      ≤ c3_cfg.max_tool_iterations.toNat
    ∧ (chat_completion c3_cfg c3_backend (fun _ => none) (fun _ => none) []).response
      = some (c3_backend (conversation_at c3_backend (fun _ => none) (fun _ => none)
          (c3_cfg.max_tool_iterations.toNat - 1) [])) := by
  have h := C3_iteration_bound c3_cfg c3_backend (fun _ => none) (fun _ => none) []
  have h2 := h.2 (fun conv => by simp [c3_backend]) (by decide)
  exact ⟨h.1, h2.1⟩

/-- C4.  The loop only ever appends: every earlier conversation is a
prefix of every later one; a tool-requesting assistant message `m` is
appended verbatim followed by exactly the results of its calls in
request order; each result message has role `tool` and carries the id
of its requesting call. -/
theorem C4_ordering (backend : List Msg → ChatResponse) (methods : MethodMap)
    (jsonParse : JsonParse) :
    (∀ (fuel : Nat) (msgs : List Msg) (last : Option ChatResponse),
      conversation_extends msgs (chat_loop backend methods jsonParse fuel msgs last).conversation)
    ∧ (∀ (msgs : List Msg) (m : Msg),
      next_conversation methods jsonParse msgs m
        = msgs ++ m :: m.tool_calls.map (execute_tool_call methods jsonParse))
    ∧ (∀ m : Msg,
      (m.tool_calls.map (execute_tool_call methods jsonParse)).map Msg.tool_call_id
        = m.tool_calls.map ToolCall.id)
    ∧ (∀ m : Msg, ∀ r ∈ m.tool_calls.map (execute_tool_call methods jsonParse),
        r.role = "tool") := by
  have hmap : ∀ l : List ToolCall,
      (l.map (execute_tool_call methods jsonParse)).map Msg.tool_call_id = l.map ToolCall.id := by
    intro l
    induction l with
    | nil => rfl
    | cons a as ih => simp only [List.map_cons, ih]; rfl
  refine ⟨?_, fun _ _ => rfl, fun m => hmap m.tool_calls, fun m r hr => ?_⟩
  · intro fuel
    induction fuel with
    | zero => intro msgs last; exact ⟨[], by simp [chat_loop]⟩
    | succ n ih =>
      intro msgs last
      by_cases h : (backend msgs).message.tool_calls = []
      · exact ⟨[], by simp [chat_loop, h]⟩
      · obtain ⟨t, ht⟩ := ih (next_conversation methods jsonParse msgs (backend msgs).message)
          (some (backend msgs))
        refine ⟨((backend msgs).message ::
          (backend msgs).message.tool_calls.map (execute_tool_call methods jsonParse)) ++ t, ?_⟩
        simp only [chat_loop, h, ite_false, if_neg]
        rw [ht]
        simp [next_conversation]
  · simp only [List.mem_map] at hr
    obtain ⟨tc, _, rfl⟩ := hr
    rfl

/-! ## Claim C10: non-positive iteration budget yields no response -/

/-- C10.  When `max_tool_iterations` is zero or negative, the `while`
body of `chat_completion` never runs: no backend round trip happens,
the conversation is untouched, and the final `return response` finds
`response` unbound (modelled as `none`), i.e. the call raises a
`NameError` instead of returning a response. -/
theorem C10_no_iterations (cfg : ProxyConfig) (backend : List Msg → ChatResponse)
    (methods : MethodMap) (jsonParse : JsonParse) (messages : List Msg)
    (h : cfg.max_tool_iterations ≤ 0) :
    (chat_completion cfg backend methods jsonParse messages).response = none
    ∧ (chat_completion cfg backend methods jsonParse messages).roundTrips = 0
    ∧ (chat_completion cfg backend methods jsonParse messages).conversation = messages := by
  have h0 : cfg.max_tool_iterations.toNat = 0 := by omega
  simp [chat_completion, h0, chat_loop]

def c10_cfg : ProxyConfig := { max_tool_iterations := 0 }

def c10_backend : List Msg → ChatResponse := fun _ => ⟨{}⟩

/-- Concrete run of C10 at `max_tool_iterations = 0`. -/
theorem C10_witness :
    (chat_completion c10_cfg c10_backend (fun _ => none) (fun _ => none) []).response = none
    ∧ (chat_completion c10_cfg c10_backend (fun _ => none) (fun _ => none) []).roundTrips = 0 := by
  have h := C10_no_iterations c10_cfg c10_backend (fun _ => none) (fun _ => none) [] (by decide)
  exact ⟨h.1, h.2.1⟩

/-! ## Claim C7 (corrected): `replace_all` and residual occurrences -/

def c7_fs : FileSystem := fun q => if q = ["f.txt"] then some (FSEntry.file "abb") else none

/-- Counterexample to C7 as stated: editing the file `"abb"` with
`old_string = "ab"`, `new_string = "a"`, `replace_all = true` succeeds
and writes `"ab"` — the post-call count of `"ab"` is 1, not 0, even
though `"ab"` is not a substring of `"a"`: the occurrence re-forms
across the boundary of the replacement. -/
theorem C7_counterexample :
    tool_edit_file (fun r => r.parts) ⟨["w"], [[]]⟩ c7_fs ⟨true, ["f.txt"]⟩ "ab" "a" true
      = Except.ok ⟨"Successfully replaced 1 occurrence(s) in /f.txt", some "ab"⟩
    ∧ py_str_count "ab" "ab" ≠ 0
    ∧ py_str_count "a" "ab" = 0 := by decide

/-- Character-wise description of a replace-all with a single-character
needle: each occurrence of `c` becomes `repl`, every other character is
kept. -/
def replace_char (c : Char) (repl : List Char) : List Char → List Char
  | [] => []
  | x :: xs => (if x = c then repl else [x]) ++ replace_char c repl xs

theorem py_count_aux_single (c : Char) :
    ∀ (fuel : Nat) (s : List Char), s.length ≤ fuel →
      py_count_aux [c] fuel s = s.count c := by
  intro fuel
  induction fuel with
  | zero =>
    intro s hs
    cases s with
    | nil => simp [py_count_aux]
    | cons x xs => simp at hs
  | succ n ih =>
    intro s hs
    cases s with
    | nil => simp [py_count_aux]
    | cons x xs =>
      simp only [List.length_cons] at hs
      by_cases hx : c = x
      · subst hx
        simp [py_count_aux, List.isPrefixOf, ih xs (by omega), List.count_cons]
        omega
      · have hb : (c == x) = false := by simp [hx]
        simp [py_count_aux, List.isPrefixOf, hb, ih xs (by omega), List.count_cons, hx]

theorem py_replace_all_aux_single (c : Char) (repl : List Char) :
    ∀ (fuel : Nat) (s : List Char), s.length ≤ fuel →
      py_replace_all_aux [c] repl fuel s = replace_char c repl s := by
  intro fuel
  induction fuel with
  | zero =>
    intro s hs
    cases s with
    | nil => simp [py_replace_all_aux, replace_char]
    | cons x xs => simp at hs
  | succ n ih =>
    intro s hs
    cases s with
    | nil => simp [py_replace_all_aux, replace_char]
    | cons x xs =>
      simp only [List.length_cons] at hs
      by_cases hx : c = x
      · subst hx
        simp [py_replace_all_aux, replace_char, List.isPrefixOf, ih xs (by omega)]
      · have hb : (c == x) = false := by simp [hx]
        have hx2 : ¬ x = c := fun hh => hx hh.symm
        simp [py_replace_all_aux, replace_char, List.isPrefixOf, hb, hx2, ih xs (by omega)]

theorem count_replace_char (c : Char) (repl : List Char) (hrepl : repl.count c = 0) :
    ∀ s : List Char, (replace_char c repl s).count c = 0 := by
  intro s
  induction s with
  | nil => simp [replace_char]
  | cons x xs ih =>
    by_cases hx : x = c
    · simp [replace_char, hx, List.count_append, hrepl, ih]
    · have hcx : ¬ c = x := fun hh => hx hh.symm
      have hb : (c == x) = false := by simp [hcx]
      simp [replace_char, hx, List.count_append, ih, List.count_cons, hb]

theorem py_str_count_single (s : String) (c : Char) :
    py_str_count s (String.mk [c]) = s.data.count c := by
  have h := py_count_aux_single c s.data.length s.data le_rfl
  simpa [py_str_count] using h

theorem py_str_replace_all_single (s : String) (c : Char) (repl : String) :
    (py_str_replace_all s (String.mk [c]) repl).data = replace_char c repl.data s.data := by
  have h := py_replace_all_aux_single c repl.data s.data.length s.data le_rfl
  simpa [py_str_replace_all] using h

/-- C7 as amended.  `edit_file` with `replace_all = true` on a file
holding at least one occurrence replaces every left-to-right
non-overlapping occurrence (Python `str.replace`) and reports the
count; the post-call count of `old_string` is guaranteed to be 0 when
`old_string` is a single character that does not occur in
`new_string` — for longer needles an occurrence can re-form across a
replacement boundary even when `old_string` is not a substring of
`new_string` (see the counterexample). -/
theorem C7_replace_all_single_char (fsResolve : RawPath → AbsPath) (cfg : SandboxConfig)
    (fs : FileSystem) (fp : RawPath) (p : AbsPath) (content new_string : String) (c : Char)
    (hres : resolve_path fsResolve cfg fp = Except.ok p)
    (hfs : fs p = some (FSEntry.file content))
    (hocc : py_str_count content (String.mk [c]) ≠ 0)
    (hnew : new_string.data.count c = 0) :
    tool_edit_file fsResolve cfg fs fp (String.mk [c]) new_string true
      = Except.ok ⟨"Successfully replaced " ++ toString (py_str_count content (String.mk [c])) ++
            " occurrence(s) in " ++ raw_path_string fp,
          some (py_str_replace_all content (String.mk [c]) new_string)⟩
    ∧ py_str_count (py_str_replace_all content (String.mk [c]) new_string) (String.mk [c]) = 0 := by
  constructor
  · simp only [tool_edit_file, hres, Except.bind, hfs]
    simp [hocc]
  · rw [py_str_count_single, py_str_replace_all_single]
    exact count_replace_char c new_string.data hnew content.data

def c7_fs2 : FileSystem := fun q => if q = ["g.txt"] then some (FSEntry.file "xx") else none

/-- Concrete run of the amended C7: replacing the single character
`x` by `"y"` in `"xx"` leaves no occurrence of `x`. -/
theorem C7_witness :
    tool_edit_file (fun r => r.parts) ⟨["w"], [[]]⟩ c7_fs2 ⟨true, ["g.txt"]⟩
        (String.mk ['x']) "y" true
      = Except.ok ⟨"Successfully replaced " ++ toString (py_str_count "xx" (String.mk ['x'])) ++
            " occurrence(s) in " ++ raw_path_string ⟨true, ["g.txt"]⟩,
          some (py_str_replace_all "xx" (String.mk ['x']) "y")⟩
    ∧ py_str_count (py_str_replace_all "xx" (String.mk ['x']) "y") (String.mk ['x']) = 0 := by
  exact C7_replace_all_single_char (fun r => r.parts) ⟨["w"], [[]]⟩ c7_fs2 ⟨true, ["g.txt"]⟩
    ["g.txt"] "xx" "y" 'x' (by decide) (by decide) (by decide) (by decide)

/-! ## Claim C8 (corrected): the `read_file` line window -/

/-- Counterexample to C8 as stated: with `offset = 0` (falsy in Python,
so treated as line 1) and `limit = 1` on a two-line file, the returned
line carries number 1, which is outside the claimed half-open window
`[0, 0 + 1)`. -/
theorem C8_counterexample :
    ¬ (∀ q ∈ read_file_numbered (py_readlines "a\nb") (some 0) (some 1),
        (0 : Int) ≤ q.1 ∧ q.1 < 0 + 1) := by decide

theorem number_from_bounds (start : Int) (xs : List String) :
    ∀ q ∈ number_from start xs, start ≤ q.1 ∧ q.1 < start + xs.length := by
  induction xs generalizing start with
  | nil => intro q hq; simp [number_from] at hq
  | cons x xs ih =>
    intro q hq
    simp only [number_from, List.mem_cons] at hq
    rcases hq with rfl | hq
    · simp only [List.length_cons]
      push_cast
      omega
    · have h2 := ih (start + 1) q hq
      simp only [List.length_cons]
      push_cast at h2 ⊢
      omega

theorem py_slice_length_le (xs : List String) (a b : Int) (ha : 0 ≤ a) (hb : 0 ≤ b) :
    (py_slice xs a b).length ≤ (b - a).toNat := by
  simp only [py_slice, List.length_drop, List.length_take]
  rw [if_neg (by omega), if_neg (by omega)]
  omega

theorem py_slice_beyond (xs : List String) (a b : Int) (ha : (xs.length : Int) ≤ a) :
    py_slice xs a b = [] := by
  have hlen : (py_slice xs a b).length = 0 := by
    simp only [py_slice, List.length_drop, List.length_take]
    split_ifs <;> omega
  exact List.eq_nil_of_length_eq_zero hlen

/-- C8 as amended.  For `offset = o ≥ 1` and `limit = l ≥ 1`,
`read_file` returns only lines whose 1-indexed numbers lie in
`[o, o + l)`, and an offset beyond the file length yields the explicit
empty-window message rather than an error.  (An offset of 0 or `None`
is falsy and treated as 1, a limit of 0 or `None` as 2000, and negative
offsets clamp to line 1 — see the counterexample for `o = 0`.) -/
theorem C8_read_window (fsResolve : RawPath → AbsPath) (cfg : SandboxConfig)
    (fs : FileSystem) (fp : RawPath) (p : AbsPath) (content : String) (o l : Int)
    (hres : resolve_path fsResolve cfg fp = Except.ok p)
    (hfs : fs p = some (FSEntry.file content))
    (ho : 1 ≤ o) (hl : 1 ≤ l) :
    (∀ q ∈ read_file_numbered (py_readlines content) (some o) (some l),
      o ≤ q.1 ∧ q.1 < o + l)
    ∧ (((py_readlines content).length : Int) < o →
        tool_read_file fsResolve cfg fs fp (some o) (some l)
          = Except.ok ("File is empty or offset is beyond file length: " ++ raw_path_string fp)) := by
  have hor : py_or_int (some o) 1 = o := by
    simp only [py_or_int]
    rw [if_neg (by omega)]
  have hol : py_or_int (some l) 2000 = l := by
    simp only [py_or_int]
    rw [if_neg (by omega)]
  have hstart : max (o - 1) 0 = o - 1 := by omega
  constructor
  · intro q hq
    simp only [read_file_numbered, hor, hol, hstart] at hq
    have hb := number_from_bounds (o - 1 + 1)
      (py_slice (py_readlines content) (o - 1) (o - 1 + l)) q hq
    have hlen := py_slice_length_le (py_readlines content) (o - 1) (o - 1 + l)
      (by omega) (by omega)
    omega
  · intro hbeyond
    have hsl : py_slice (py_readlines content) (o - 1) (o - 1 + l) = [] :=
      py_slice_beyond _ _ _ (by omega)
    simp only [tool_read_file, hres, Except.bind, hfs]
    simp only [read_file_output, read_file_numbered, hor, hol, hstart, hsl, number_from]
    simp

def c8_fs : FileSystem := fun q => if q = ["n.txt"] then some (FSEntry.file "a\nb") else none

/-- Concrete run of the amended C8: offset 5 on a two-line file selects
nothing inside `[5, 7)` and returns the explicit empty-window message. -/
theorem C8_witness :
    (∀ q ∈ read_file_numbered (py_readlines "a\nb") (some 5) (some 2),
      (5 : Int) ≤ q.1 ∧ q.1 < 5 + 2)
    ∧ tool_read_file (fun r => r.parts) ⟨["w"], [[]]⟩ c8_fs ⟨true, ["n.txt"]⟩ (some 5) (some 2)
      = Except.ok ("File is empty or offset is beyond file length: " ++
          raw_path_string ⟨true, ["n.txt"]⟩) := by
  have h := C8_read_window (fun r => r.parts) ⟨["w"], [[]]⟩ c8_fs ⟨true, ["n.txt"]⟩
    ["n.txt"] "a\nb" 5 2 (by decide) (by decide) (by decide) (by decide)
  exact ⟨h.1, h.2 (by decide)⟩

end OllamaTools
